import Mathlib

/-!
Shallow embedding of the frame-synchronization and render-target lifecycle
subsystem of the `vkguide_rust` renderer
(`src/engine/renderer/mod.rs`, `src/engine/renderer/structs/command_manager.rs`),
together with theorems settling the specification claims about it.

Vulkan handles are modelled as natural numbers, flag bitmasks as naturals
with the Vulkan constant values, and the fallible external device calls as
an oracle record supplying each call's outcome.  Rust `panic!`/`expect`
becomes an explicit `panicked` outcome carrying the trace so far and the
panic message; `log::error!` becomes a `logError` trace event.
-/

namespace VkGuide

/-! ## Vulkan-level constants and enums -/

/-- `VkResult` values relevant to this subsystem. -/
inductive VkResult where
  | SUCCESS
  | TIMEOUT
  | ERROR_OUT_OF_DATE_KHR
  | ERROR_DEVICE_LOST
  deriving DecidableEq, Repr

/-- Image formats; Vulkan numeric codes.  `D32_SFLOAT = 126`. -/
abbrev Format := Nat

def Format.D32_SFLOAT : Format := 126

/-- Pipeline stage flag bits (Vulkan values). -/
abbrev PipelineStageFlags := Nat

def PipelineStageFlags.EARLY_FRAGMENT_TESTS : PipelineStageFlags := 0x00000100
def PipelineStageFlags.LATE_FRAGMENT_TESTS : PipelineStageFlags := 0x00000200
def PipelineStageFlags.COLOR_ATTACHMENT_OUTPUT : PipelineStageFlags := 0x00000400

/-- Access flag bits (Vulkan values). -/
abbrev AccessFlags := Nat

def AccessFlags.NONE : AccessFlags := 0
def AccessFlags.COLOR_ATTACHMENT_WRITE : AccessFlags := 0x00000100
def AccessFlags.DEPTH_STENCIL_ATTACHMENT_WRITE : AccessFlags := 0x00000400

/-- `VK_SUBPASS_EXTERNAL = u32::MAX`. -/
def SUBPASS_EXTERNAL : Nat := 2 ^ 32 - 1

inductive AttachmentLoadOp where
  | CLEAR
  | LOAD
  | DONT_CARE
  deriving DecidableEq, Repr

inductive AttachmentStoreOp where
  | STORE
  | DONT_CARE
  deriving DecidableEq, Repr

inductive ImageLayout where
  | UNDEFINED
  | COLOR_ATTACHMENT_OPTIMAL
  | DEPTH_STENCIL_ATTACHMENT_OPTIMAL
  | PRESENT_SRC_KHR
  deriving DecidableEq, Repr

/-! ## Render-pass description records (mirroring the ash builder structs) -/

structure AttachmentDescription where
  format : Format
  samples : Nat
  load_op : AttachmentLoadOp
  store_op : AttachmentStoreOp
  stencil_load_op : AttachmentLoadOp
  stencil_store_op : AttachmentStoreOp
  initial_layout : ImageLayout
  final_layout : ImageLayout
  deriving DecidableEq, Repr

structure AttachmentReference where
  attachment : Nat
  layout : ImageLayout
  deriving DecidableEq, Repr

structure SubpassDescription where
  color_attachments : List AttachmentReference
  depth_stencil_attachment : Option AttachmentReference
  deriving DecidableEq, Repr

structure SubpassDependency where
  src_subpass : Nat
  dst_subpass : Nat
  src_stage_mask : PipelineStageFlags
  src_access_mask : AccessFlags
  dst_stage_mask : PipelineStageFlags
  dst_access_mask : AccessFlags
  deriving DecidableEq, Repr

structure RenderPassCreateInfo where
  attachments : List AttachmentDescription
  subpasses : List SubpassDescription
  dependencies : List SubpassDependency
  deriving DecidableEq, Repr

/-- The render-pass description built by `Renderer::init_render_pass`
(`mod.rs` lines 159–232), as a function of the swapchain's chosen color
image format. -/
def init_render_pass_create_info (image_format : Format) : RenderPassCreateInfo :=
  let attachment_description : AttachmentDescription :=
    { format := image_format
      samples := 1
      load_op := .CLEAR
      store_op := .STORE
      stencil_load_op := .DONT_CARE
      stencil_store_op := .DONT_CARE
      initial_layout := .UNDEFINED
      final_layout := .PRESENT_SRC_KHR }
  let attachment_references : List AttachmentReference :=
    [{ attachment := 0, layout := .COLOR_ATTACHMENT_OPTIMAL }]
  let depth_attachment_description : AttachmentDescription :=
    { format := Format.D32_SFLOAT
      samples := 1
      load_op := .CLEAR
      store_op := .STORE
      stencil_load_op := .CLEAR
      stencil_store_op := .DONT_CARE
      initial_layout := .UNDEFINED
      final_layout := .DEPTH_STENCIL_ATTACHMENT_OPTIMAL }
  let depth_attachment_references : AttachmentReference :=
    { attachment := 1, layout := .DEPTH_STENCIL_ATTACHMENT_OPTIMAL }
  let subpass_descriptions : List SubpassDescription :=
    [{ color_attachments := attachment_references
       depth_stencil_attachment := some depth_attachment_references }]
  let color_dependency : SubpassDependency :=
    { src_subpass := SUBPASS_EXTERNAL
      dst_subpass := 0
      src_stage_mask := PipelineStageFlags.COLOR_ATTACHMENT_OUTPUT
      src_access_mask := AccessFlags.NONE
      dst_stage_mask := PipelineStageFlags.COLOR_ATTACHMENT_OUTPUT
      dst_access_mask := AccessFlags.COLOR_ATTACHMENT_WRITE }
  let depth_dependency : SubpassDependency :=
    { src_subpass := SUBPASS_EXTERNAL
      dst_subpass := 0
      src_stage_mask :=
        PipelineStageFlags.EARLY_FRAGMENT_TESTS ||| PipelineStageFlags.LATE_FRAGMENT_TESTS
      src_access_mask := AccessFlags.NONE
      dst_stage_mask :=
        PipelineStageFlags.EARLY_FRAGMENT_TESTS ||| PipelineStageFlags.LATE_FRAGMENT_TESTS
      dst_access_mask := AccessFlags.DEPTH_STENCIL_ATTACHMENT_WRITE }
  { attachments := [attachment_description, depth_attachment_description]
    subpasses := subpass_descriptions
    dependencies := [color_dependency, depth_dependency] }

/-! Predicates phrased after the specification's words, to be checked
against the source-derived description. -/

/-- "one color attachment with clear load op, store store op, undefined
initial layout and present-ready final layout". -/
def isSpecColorAttachment (a : AttachmentDescription) : Prop :=
  a.load_op = .CLEAR ∧ a.store_op = .STORE ∧
    a.initial_layout = .UNDEFINED ∧ a.final_layout = .PRESENT_SRC_KHR

/-- "one depth attachment with clear/store and undefined-to-depth-optimal
layouts". -/
def isSpecDepthAttachment (a : AttachmentDescription) : Prop :=
  a.load_op = .CLEAR ∧ a.store_op = .STORE ∧
    a.initial_layout = .UNDEFINED ∧ a.final_layout = .DEPTH_STENCIL_ATTACHMENT_OPTIMAL

/-- "external-to-subpass-0 dependency at the given stage mask". -/
def isExternalToSubpass0Dependency (d : SubpassDependency) (stages : PipelineStageFlags) : Prop :=
  d.src_subpass = SUBPASS_EXTERNAL ∧ d.dst_subpass = 0 ∧
    d.src_stage_mask = stages ∧ d.dst_stage_mask = stages

/-! ## The per-frame render cycle (`Renderer::render`, `mod.rs` lines 315–445)

The external device/swapchain collaborators are modelled by an oracle
record giving the outcome of each fallible call.  Every call `render`
makes is recorded as a trace event; a Rust `expect`/`unwrap` failure
yields the `panicked` outcome with the trace up to the failing call and
the panic message. -/

/-- Vulkan handles. -/
abbrev Handle := Nat

/-- The renderer fields that the frame cycle reads
(`Renderer` struct, `mod.rs` lines 46–58), plus the fence's signal state
(device-side, tracked explicitly). -/
structure RendererState where
  framenumber : Nat
  render_pass : Handle
  framebuffers : List Handle
  render_semaphore : Handle
  present_semaphore : Handle
  fence : Handle
  /-- Names of the meshes iterated by the draw loop. -/
  meshes : List String
  /-- Whether the frame fence is currently signaled on the device. -/
  fenceSignaled : Bool
  deriving DecidableEq, Repr

instance {ε α : Type} [DecidableEq ε] [DecidableEq α] : DecidableEq (Except ε α) := fun a b =>
  match a, b with
  | .error e, .error f =>
    if h : e = f then .isTrue (by simp [h]) else .isFalse (by simp [h])
  | .ok x, .ok y =>
    if h : x = y then .isTrue (by simp [h]) else .isFalse (by simp [h])
  | .error _, .ok _ => .isFalse (by simp)
  | .ok _, .error _ => .isFalse (by simp)

/-- Outcomes of the fallible external calls made during one frame cycle. -/
structure DeviceOracle where
  /-- Result of `wait_for_fences` when the fence is not already signaled. -/
  waitResult : VkResult
  /-- Nanoseconds the wait blocks when the fence is not already signaled. -/
  waitElapsedNs : Nat
  resetFencesOk : Bool
  /-- `Swapchain::acquire_next_image`: acquired `(index, is_suboptimal)`,
  or the error result (e.g. `ERROR_OUT_OF_DATE_KHR`). -/
  acquire : Except VkResult (Nat × Bool)
  resetCommandBufferOk : Bool
  beginCommandBufferOk : Bool
  endCommandBufferOk : Bool
  queueSubmitOk : Bool
  deriving DecidableEq, Repr

/-- Trace events: one per external call `Renderer::render` issues, plus
`logError` for `log::error!`. -/
inductive RenderEvent where
  | waitForFences (fences : List Handle) (waitAll : Bool) (timeoutNs : Nat)
  | resetFences (fences : List Handle)
  | acquireNextImage (signalSemaphore : Handle)
  | resetCommandBuffer
  | beginCommandBuffer
  | logError (msg : String)
  | beginRenderPass (renderPass framebuffer : Handle)
  | bindPipeline
  | bindVertexBuffers (mesh : String)
  | pushConstants (mesh : String)
  | draw (mesh : String)
  | endRenderPass
  | endCommandBuffer
  | queueSubmit (waitSemaphores signalSemaphores : List Handle) (fence : Handle)
  | present (imageIndex : Nat) (waitSemaphores : List Handle)
  deriving DecidableEq, Repr

/-- Outcome of one `render` call: either the call returned (with the new
renderer state), or a Rust panic aborted it. -/
inductive Outcome where
  | completed (trace : List RenderEvent) (state : RendererState)
  | panicked (trace : List RenderEvent) (msg : String)
  deriving DecidableEq, Repr

/-- The events actually issued, in order. -/
def Outcome.trace : Outcome → List RenderEvent
  | .completed t _ => t
  | .panicked t _ => t

def Outcome.isPanic : Outcome → Bool
  | .completed _ _ => false
  | .panicked _ _ => true

/-- Modelled from the spec: Vulkan fence-wait semantics for the external
device collaborator — a wait on an already-signaled fence returns
`SUCCESS` immediately (0 ns blocked); otherwise the device decides the
result and how long the caller blocked.  Returns (result, blocked ns). -/
def waitForFencesCall (fenceSignaled : Bool) (o : DeviceOracle) : VkResult × Nat :=
  if fenceSignaled then (.SUCCESS, 0) else (o.waitResult, o.waitElapsedNs)

/-- The draw loop body (`mod.rs` lines 384–423): for each mesh, bind its
vertex buffer, push the constants, draw. -/
def drawEvents (meshes : List String) : List RenderEvent :=
  meshes.flatMap fun name =>
    [.bindVertexBuffers name, .pushConstants name, .draw name]

/-- `Renderer::render` from `begin_render_pass` onwards (`mod.rs` lines
352–445), shared by both exits of `begin_main_command_buffer`.
`t` is the trace accumulated so far. -/
def renderAfterBegin (r : RendererState) (o : DeviceOracle) (image_index : Nat)
    (t : List RenderEvent) : Outcome :=
  -- self.framebuffers[image_index as usize] panics when out of bounds
  match r.framebuffers.get? image_index with
  | none => .panicked t "index out of bounds"
  | some fb =>
    let t := t ++ [.beginRenderPass r.render_pass fb, .bindPipeline]
      ++ drawEvents r.meshes ++ [.endRenderPass, .endCommandBuffer]
    -- end_main_command_buffer().unwrap()
    if !o.endCommandBufferOk then
      .panicked t "called `Result::unwrap()` on an `Err` value: Failed to end command buffer"
    else
      -- submit_main_command_buffer(&[present], &[present], fence)
      let t := t ++ [.queueSubmit [r.present_semaphore] [r.present_semaphore] r.fence]
      let t := if o.queueSubmitOk then t
        else t ++ [.logError "Failed to submit command buffer"]
      -- swapchain.present(queue, image_index, &[present])
      let t := t ++ [.present image_index [r.present_semaphore]]
      .completed t { r with framenumber := r.framenumber + 1 }

/-- One frame cycle, `Renderer::render` (`mod.rs` lines 315–445). -/
def render (r : RendererState) (o : DeviceOracle) : Outcome :=
  -- wait_for_fences(&[fence], true, 1000000000).expect("Failed to wait for fence")
  let t : List RenderEvent := [.waitForFences [r.fence] true 1000000000]
  if (waitForFencesCall r.fenceSignaled o).1 ≠ .SUCCESS then
    .panicked t "Failed to wait for fence"
  else
    -- reset_fences(&[fence]).expect("Failed to reset fence")
    let t := t ++ [.resetFences [r.fence]]
    if !o.resetFencesOk then .panicked t "Failed to reset fence"
    else
      let r := { r with fenceSignaled := false }
      -- acquire_next_image(present_semaphore).expect("Failed to acquire next image")
      let t := t ++ [.acquireNextImage r.present_semaphore]
      match o.acquire with
      | .error _ => .panicked t "Failed to acquire next image"
      | .ok (image_index, _) =>
        -- begin_main_command_buffer (command_manager.rs lines 73–94)
        let t := t ++ [.resetCommandBuffer]
        if !o.resetCommandBufferOk then
          -- reset failed: log::error! and early return from begin; render continues
          renderAfterBegin r o image_index
            (t ++ [.logError "Failed to reset command buffer"])
        else
          let t := t ++ [.beginCommandBuffer]
          if !o.beginCommandBufferOk then
            .panicked t "Failed to begin command buffer"
          else
            renderAfterBegin r o image_index t

/-! ## Construction (`Renderer::new`, `mod.rs` lines 61–157): the sync
primitives -/

inductive FenceCreateFlags where
  | empty
  | SIGNALED
  deriving DecidableEq, Repr

/-- `FenceCreateInfo::builder().flags(vk::FenceCreateFlags::SIGNALED)`
(`mod.rs` lines 112–113). -/
def renderer_fence_create_flags : FenceCreateFlags := .SIGNALED

/-- Modelled from the spec: Vulkan fence creation on the external device
collaborator — the new fence's signal state is signaled exactly when the
`SIGNALED` creation flag is set. -/
def createdFenceSignaled (flags : FenceCreateFlags) : Bool :=
  flags == .SIGNALED

/-- The renderer state as `Renderer::new` returns it (`mod.rs` lines
144–156): `framenumber = 0`, the fence freshly created with
`renderer_fence_create_flags`, handles supplied by the device. -/
def Renderer.newState (render_pass : Handle) (framebuffers : List Handle)
    (fence render_semaphore present_semaphore : Handle)
    (meshes : List String) : RendererState :=
  { framenumber := 0
    render_pass
    framebuffers
    render_semaphore
    present_semaphore
    fence
    meshes
    fenceSignaled := createdFenceSignaled renderer_fence_create_flags }

/-! ## Teardown (`impl Drop for Renderer`, `mod.rs` lines 448–485) -/

inductive DropEvent where
  | waitForFences (fences : List Handle) (waitAll : Bool) (timeoutNs : Nat)
  | freeMesh (name : String)
  | destroySemaphore (h : Handle)
  | destroyFence (h : Handle)
  | dropPipeline
  | destroyFramebuffer (h : Handle)
  | destroyRenderPass (h : Handle)
  deriving DecidableEq, Repr

/-- The destruction calls `Renderer::drop` issues, in order.  `waitOk`
is whether the initial `wait_for_fences` succeeds; its `expect` panics
otherwise, aborting the teardown after the wait. -/
def Renderer.dropEvents (r : RendererState) (waitOk : Bool) : List DropEvent :=
  [.waitForFences [r.fence] true 1000000000]
    ++ if !waitOk then [] else
      r.meshes.map .freeMesh
        ++ [.destroySemaphore r.render_semaphore,
            .destroySemaphore r.present_semaphore,
            .destroyFence r.fence,
            .dropPipeline]
        ++ r.framebuffers.map .destroyFramebuffer
        ++ [.destroyRenderPass r.render_pass]

/-- Phases of the teardown, in the order the claim states them. -/
def DropEvent.phase : DropEvent → Nat
  | .waitForFences _ _ _ => 0
  | .freeMesh _ => 1
  | .destroySemaphore _ => 2
  | .destroyFence _ => 2
  | .dropPipeline => 3
  | .destroyFramebuffer _ => 4
  | .destroyRenderPass _ => 5

/-! ## Frame-target construction (`Renderer::init_frame_buffers`,
`mod.rs` lines 234–265) -/

inductive FbEvent where
  | createFramebuffer (renderPass : Handle) (colorView depthView : Handle)
  | destroyFramebuffer (h : Handle)
  deriving DecidableEq, Repr

/-- `init_frame_buffers`: one framebuffer per swapchain image view, each
with attachments `[image_view, depth_image_view]`; on a creation failure
it returns the error immediately.  `create i` gives the device's answer
to the i-th `create_framebuffer` call: the new handle, or failure.
Returns the result together with the trace of create/destroy calls. -/
def init_frame_buffers (render_pass : Handle) (image_views : List Handle)
    (depth_image_view : Handle) (create : Nat → Option Handle) :
    Except String (List Handle) × List FbEvent :=
  go image_views 0 [] []
where
  go : List Handle → Nat → List Handle → List FbEvent →
      Except String (List Handle) × List FbEvent
  | [], _, framebuffers, events => (.ok framebuffers.reverse, events.reverse)
  | image_view :: rest, i, framebuffers, events =>
    let events := FbEvent.createFramebuffer render_pass image_view depth_image_view :: events
    match create i with
    | none => (.error "Failed to create framebuffer", events.reverse)
    | some fb => go rest (i + 1) (fb :: framebuffers) events

/-! ## Mesh upload (`Renderer::upload_mesh`, `mod.rs` lines 277–313) -/

/-- A vertex, abstracted to its byte representation (the `Vertex` layout
itself is the Mesh/Vertex collaborator, out of scope). -/
structure Vertex where
  bytes : List Nat
  deriving DecidableEq, Repr

structure AllocatedBuffer where
  buffer : Handle
  allocation : Handle
  deriving DecidableEq, Repr

structure Mesh where
  vertices : List Vertex
  vertex_count : Nat
  vertex_buffer : Option AllocatedBuffer
  deriving DecidableEq, Repr

inductive UploadEvent where
  | createBuffer (sizeBytes : Nat)
  | mapMemory
  | copyBytes (bytes : List Nat)
  | unmapMemory
  deriving DecidableEq, Repr

/-- `upload_mesh`: allocates a buffer of
`vertices.len() * size_of::<Vertex>()` bytes, maps it, copies that many
bytes from the vertex array, unmaps, records the buffer on the mesh and
clears the host-side vertex list.  `sizeOfVertex` models
`size_of::<Vertex>()`; the bytes copied are the first
`len * sizeOfVertex` bytes of the contiguous vertex array. -/
def upload_mesh (sizeOfVertex : Nat) (newBuffer : AllocatedBuffer) (mesh : Mesh) :
    Mesh × List UploadEvent :=
  let size := mesh.vertices.length * sizeOfVertex
  let copied := ((mesh.vertices.map Vertex.bytes).flatten).take size
  ({ mesh with vertex_buffer := some newBuffer, vertices := [] },
    [.createBuffer size, .mapMemory, .copyBytes copied, .unmapMemory])

/-! ## `CommandManager` (`command_manager.rs`) -/

structure Queue where
  main_queue_index : Nat
  transfer_only_queue_index : Nat
  deriving DecidableEq, Repr

structure CommandManager where
  main_command_pool : Handle
  transfer_command_pool : Handle
  deriving DecidableEq, Repr

/-- `CommandManager::new` (`command_manager.rs` lines 21–71), pool
selection only: the device hands out `mainPool` for the first
`create_command_pool` call and `otherPool` for the second; when the
graphics and transfer queue-family indices coincide the transfer pool is
the main pool and no second pool is created. -/
def CommandManager.new (queue : Queue) (mainPool otherPool : Handle) : CommandManager :=
  let main_command_pool := mainPool
  let transfer_command_pool :=
    if queue.main_queue_index == queue.transfer_only_queue_index then
      main_command_pool
    else
      otherPool
  { main_command_pool, transfer_command_pool }

/-- `impl Drop for CommandManager` (`command_manager.rs` lines 135–146):
destroy the main pool; destroy the transfer pool only when it differs. -/
def CommandManager.dropDestroyedPools (cm : CommandManager) : List Handle :=
  [cm.main_command_pool]
    ++ if cm.main_command_pool ≠ cm.transfer_command_pool then
        [cm.transfer_command_pool]
      else []

/-- Result of `CommandManager::begin_main_command_buffer`
(`command_manager.rs` lines 73–94): on reset failure it logs and returns
`()` (no error value); on `begin_command_buffer` failure the `expect`
panics; otherwise it returns `()` after opening a one-time-submit scope. -/
inductive BeginOutcome where
  | returnedUnit (loggedErrors : List String)
  | panicked (msg : String)
  deriving DecidableEq, Repr

def begin_main_command_buffer (resetOk beginOk : Bool) : BeginOutcome :=
  if !resetOk then
    .returnedUnit ["Failed to reset command buffer"]
  else if !beginOk then
    .panicked "Failed to begin command buffer"
  else
    .returnedUnit []

/-- `CommandManager::end_main_command_buffer` (`command_manager.rs`
lines 96–101). -/
def end_main_command_buffer (endOk : Bool) : Except String Unit :=
  if endOk then .ok () else .error "Failed to end command buffer"

/-! ## Concrete sample inputs used by witnesses and counterexamples -/

/-- A renderer state with distinct handles: fence 1, render-semaphore 2,
present-semaphore 3, render pass 4, two framebuffers, one mesh. -/
def sampleState : RendererState :=
  { framenumber := 0
    render_pass := 4
    framebuffers := [10, 11]
    render_semaphore := 2
    present_semaphore := 3
    fence := 1
    meshes := ["monkey"]
    fenceSignaled := true }

/-- An oracle under which every external call succeeds and image 0 is
acquired. -/
def okOracle : DeviceOracle :=
  { waitResult := .SUCCESS
    waitElapsedNs := 0
    resetFencesOk := true
    acquire := .ok (0, false)
    resetCommandBufferOk := true
    beginCommandBufferOk := true
    endCommandBufferOk := true
    queueSubmitOk := true }

/-- `okOracle`, except that image acquisition reports the surface is out
of date. -/
def outOfDateOracle : DeviceOracle :=
  { okOracle with acquire := .error .ERROR_OUT_OF_DATE_KHR }

/-- `okOracle`, except that `end_command_buffer` fails. -/
def endFailOracle : DeviceOracle :=
  { okOracle with endCommandBufferOk := false }

/-! ## C5: structure of the render pass built by `init_render_pass` -/

/-- C5: every render-pass description built by `init_render_pass` has
exactly two attachments — a color attachment (clear/store, undefined →
present-ready) carrying the swapchain format and a depth attachment
(clear/store, undefined → depth-optimal) — exactly one subpass declaring
one color and one depth attachment, and exactly two external→subpass-0
dependencies, one at the color-attachment-output stage and one at the
early/late fragment-test stages. -/
theorem init_render_pass_structure (image_format : Format) :
    ∃ ca da sp d1 d2,
      (init_render_pass_create_info image_format).attachments = [ca, da]
      ∧ isSpecColorAttachment ca ∧ ca.format = image_format
      ∧ isSpecDepthAttachment da
      ∧ (init_render_pass_create_info image_format).subpasses = [sp]
      ∧ sp.color_attachments.length = 1
      ∧ sp.depth_stencil_attachment.isSome = true
      ∧ (init_render_pass_create_info image_format).dependencies = [d1, d2]
      ∧ isExternalToSubpass0Dependency d1 PipelineStageFlags.COLOR_ATTACHMENT_OUTPUT
      ∧ isExternalToSubpass0Dependency d2
          (PipelineStageFlags.EARLY_FRAGMENT_TESTS ||| PipelineStageFlags.LATE_FRAGMENT_TESTS) := by
  refine ⟨_, _, _, _, _, rfl, ⟨rfl, rfl, rfl, rfl⟩, rfl, ⟨rfl, rfl, rfl, rfl⟩,
    rfl, rfl, rfl, rfl, ⟨rfl, rfl, rfl, rfl⟩, ⟨rfl, rfl, rfl, rfl⟩⟩

/-! ## C10: shared command pool is destroyed exactly once -/

/-- C10: when the graphics and transfer queue-family indices coincide,
`CommandManager::new` makes the transfer pool the very same handle as the
main pool, and `Drop` then destroys that shared pool exactly once; with
distinct device-issued pool handles, no pool handle is ever destroyed
twice. -/
theorem commandManager_shared_pool_destroyed_once (q : Queue)
    (mainPool otherPool : Handle) (hdistinct : mainPool ≠ otherPool) :
    (q.main_queue_index = q.transfer_only_queue_index →
      (CommandManager.new q mainPool otherPool).transfer_command_pool =
        (CommandManager.new q mainPool otherPool).main_command_pool
      ∧ (CommandManager.new q mainPool otherPool).dropDestroyedPools = [mainPool])
    ∧ (∀ h : Handle,
        (CommandManager.new q mainPool otherPool).dropDestroyedPools.count h ≤ 1) := by
  by_cases hq : q.main_queue_index = q.transfer_only_queue_index
  · have hcm : CommandManager.new q mainPool otherPool =
        { main_command_pool := mainPool, transfer_command_pool := mainPool } := by
      simp [CommandManager.new, hq]
    have hdrop : (CommandManager.new q mainPool otherPool).dropDestroyedPools = [mainPool] := by
      rw [hcm]
      simp [CommandManager.dropDestroyedPools]
    refine ⟨fun _ => ⟨by rw [hcm], hdrop⟩, fun h => ?_⟩
    rw [hdrop]
    exact List.nodup_iff_count_le_one.mp (by simp) h
  · have hcm : CommandManager.new q mainPool otherPool =
        { main_command_pool := mainPool, transfer_command_pool := otherPool } := by
      simp [CommandManager.new, hq]
    have hdrop : (CommandManager.new q mainPool otherPool).dropDestroyedPools =
        [mainPool, otherPool] := by
      rw [hcm]
      simp [CommandManager.dropDestroyedPools, hdistinct]
    refine ⟨fun h => absurd h hq, fun h => ?_⟩
    rw [hdrop]
    exact List.nodup_iff_count_le_one.mp (by simp [hdistinct]) h

/-- Witness for C10 at concrete pool handles 1 ≠ 2 and coinciding
queue-family indices. -/
theorem commandManager_shared_pool_destroyed_once_witness :
    (1 : Handle) ≠ 2
    ∧ (CommandManager.new ⟨0, 0⟩ 1 2).transfer_command_pool =
        (CommandManager.new ⟨0, 0⟩ 1 2).main_command_pool
    ∧ (CommandManager.new ⟨0, 0⟩ 1 2).dropDestroyedPools.count 1 ≤ 1 :=
  ⟨by decide,
    ((commandManager_shared_pool_destroyed_once ⟨0, 0⟩ 1 2 (by decide)).1 rfl).1,
    (commandManager_shared_pool_destroyed_once ⟨0, 0⟩ 1 2 (by decide)).2 1⟩

/-! ## C6: error behaviour of begin/end/reset on the command buffer -/

/-- C6 (counterexample): when the reset is rejected,
`begin_main_command_buffer` does not fail — it logs and returns unit,
reporting no error value; and when opening the recording scope fails,
the process panics instead of dropping the frame.  This refutes the
claim that begin failures are reported as a `RecorderError` and never
crash the process. -/
theorem begin_main_command_buffer_no_error_report_cex :
    begin_main_command_buffer false true = .returnedUnit ["Failed to reset command buffer"]
    ∧ begin_main_command_buffer true false = .panicked "Failed to begin command buffer" := by
  constructor <;> rfl

/-- C6 (amended): when the reset is rejected, begin only logs the
failure and returns unit (no error value is produced, recording is
skipped); when opening the recording scope fails, the `expect` panics;
`end` reports its failure as an error value, but the render cycle
unwraps it, so an end failure that is reached panics the process. -/
theorem begin_end_recorder_error_behavior (beginOk endOk : Bool)
    (r : RendererState) (o : DeviceOracle) :
    begin_main_command_buffer false beginOk =
      .returnedUnit ["Failed to reset command buffer"]
    ∧ begin_main_command_buffer true false = .panicked "Failed to begin command buffer"
    ∧ end_main_command_buffer endOk =
        (if endOk then Except.ok () else Except.error "Failed to end command buffer")
    ∧ (o.endCommandBufferOk = false → RenderEvent.endCommandBuffer ∈ (render r o).trace →
        (render r o).isPanic = true) := by
  refine ⟨by cases beginOk <;> rfl, rfl, rfl, fun hend _hmem => ?_⟩
  unfold render renderAfterBegin
  simp only [hend, Bool.not_false, if_true]
  repeat' split
  all_goals rfl

/-- Witness for C6's amended theorem: under `endFailOracle` the end call
is reached and the render cycle panics. -/
theorem begin_end_recorder_error_behavior_witness :
    (render sampleState endFailOracle).isPanic = true :=
  (begin_end_recorder_error_behavior true false sampleState endFailOracle).2.2.2
    (by rfl) (by decide)

/-! ## C8: mesh upload -/

/-- C8: for a mesh whose vertices each occupy `size_of::<Vertex>()`
bytes, `upload_mesh` allocates a buffer of exactly
`count(vertices) * size_of::<Vertex>()` bytes, copies exactly the
vertex bytes, unmaps after the copy, records the buffer on the mesh,
and leaves the host-side vertex list empty. -/
theorem upload_mesh_copies_exact_bytes_and_discards (sizeOfVertex : Nat)
    (buf : AllocatedBuffer) (m : Mesh)
    (h : ∀ v ∈ m.vertices, v.bytes.length = sizeOfVertex) :
    (upload_mesh sizeOfVertex buf m).2 =
      [.createBuffer (m.vertices.length * sizeOfVertex), .mapMemory,
        .copyBytes ((m.vertices.map Vertex.bytes).flatten), .unmapMemory]
    ∧ (upload_mesh sizeOfVertex buf m).1.vertices = []
    ∧ (upload_mesh sizeOfVertex buf m).1.vertex_buffer = some buf := by
  refine ⟨?_, rfl, rfl⟩
  have hgen : ∀ l : List Vertex, (∀ v ∈ l, v.bytes.length = sizeOfVertex) →
      ((l.map Vertex.bytes).flatten).length = l.length * sizeOfVertex := by
    intro l
    induction l with
    | nil => intro _; simp
    | cons v vs ih =>
      intro hl
      simp only [List.map_cons, List.flatten_cons, List.length_append, List.length_cons]
      rw [hl v (by simp), ih (fun w hw => hl w (by simp [hw]))]
      ring
  have hlen := hgen m.vertices h
  unfold upload_mesh
  simp only []
  rw [← hlen, List.take_length]

/-- Witness for C8 at a concrete two-vertex mesh with 3-byte vertices. -/
theorem upload_mesh_copies_exact_bytes_and_discards_witness :
    (([⟨[1, 2, 3]⟩, ⟨[4, 5, 6]⟩] : List Vertex).all fun v => v.bytes.length == 3) = true
    ∧ (upload_mesh 3 ⟨5, 6⟩
        { vertices := [⟨[1, 2, 3]⟩, ⟨[4, 5, 6]⟩], vertex_count := 2,
          vertex_buffer := none }).1.vertices = [] :=
  ⟨by decide,
    (upload_mesh_copies_exact_bytes_and_discards 3 ⟨5, 6⟩
      { vertices := [⟨[1, 2, 3]⟩, ⟨[4, 5, 6]⟩], vertex_count := 2, vertex_buffer := none }
      (by decide)).2.1⟩

/-! ## C4: teardown order of `Renderer::drop` -/

/-- Helper: a block of events all at one phase is pairwise
phase-monotone. -/
theorem pairwise_phase_of_const (l : List DropEvent) (p : Nat)
    (h : ∀ e ∈ l, DropEvent.phase e = p) :
    List.Pairwise (fun a b => DropEvent.phase a ≤ DropEvent.phase b) l :=
  List.pairwise_of_forall_mem_list fun a ha b hb =>
    le_of_eq ((h a ha).trans (h b hb).symm)

/-- Helper: gluing phase-monotone blocks at a pivot phase. -/
theorem pairwise_phase_append (l₁ l₂ : List DropEvent) (c : Nat)
    (h₁ : ∀ e ∈ l₁, DropEvent.phase e ≤ c) (h₂ : ∀ e ∈ l₂, c ≤ DropEvent.phase e)
    (p₁ : List.Pairwise (fun a b => DropEvent.phase a ≤ DropEvent.phase b) l₁)
    (p₂ : List.Pairwise (fun a b => DropEvent.phase a ≤ DropEvent.phase b) l₂) :
    List.Pairwise (fun a b => DropEvent.phase a ≤ DropEvent.phase b) (l₁ ++ l₂) :=
  List.pairwise_append.mpr ⟨p₁, p₂, fun a ha b hb => le_trans (h₁ a ha) (h₂ b hb)⟩

/-- Helper: filtering a constant-phase block by a phase test keeps all
of it or none of it. -/
theorem filter_phase_of_const (k p : Nat) :
    ∀ (l : List DropEvent), (∀ e ∈ l, DropEvent.phase e = p) →
      l.filter (fun e => DropEvent.phase e == k) = if p = k then l else [] := by
  intro l
  induction l with
  | nil =>
    intro _
    by_cases h : p = k <;> simp [h]
  | cons a t ih =>
    intro h
    have ha := h a (by simp)
    have ht := ih (fun e he => h e (by simp [he]))
    by_cases hpk : p = k
    · subst hpk
      simp [List.filter_cons, ha, ht]
    · simp [List.filter_cons, ha, hpk, ht]

/-- C4: on a successful fence wait, the teardown's destruction calls are
phase-monotone in the order wait-fence (0), free geometry (1),
destroy semaphores and fence (2), destroy pipeline (3), destroy
framebuffers (4), destroy render pass (5) — and each phase consists of
exactly the claimed calls: the single bounded fence wait, one free per
mesh, the two semaphores then the fence, the pipeline, one destroy per
framebuffer, and the render pass. -/
theorem renderer_drop_order (r : RendererState) :
    List.Pairwise (fun a b => DropEvent.phase a ≤ DropEvent.phase b)
      (Renderer.dropEvents r true)
    ∧ (Renderer.dropEvents r true).filter (fun e => e.phase == 0) =
        [.waitForFences [r.fence] true 1000000000]
    ∧ (Renderer.dropEvents r true).filter (fun e => e.phase == 1) =
        r.meshes.map .freeMesh
    ∧ (Renderer.dropEvents r true).filter (fun e => e.phase == 2) =
        [.destroySemaphore r.render_semaphore, .destroySemaphore r.present_semaphore,
          .destroyFence r.fence]
    ∧ (Renderer.dropEvents r true).filter (fun e => e.phase == 3) = [.dropPipeline]
    ∧ (Renderer.dropEvents r true).filter (fun e => e.phase == 4) =
        r.framebuffers.map .destroyFramebuffer
    ∧ (Renderer.dropEvents r true).filter (fun e => e.phase == 5) =
        [.destroyRenderPass r.render_pass] := by
  have hwait : ∀ e ∈ ([DropEvent.waitForFences [r.fence] true 1000000000] : List DropEvent),
      DropEvent.phase e = 0 := by
    intro e he
    simp only [List.mem_singleton] at he
    subst he
    rfl
  have hmesh : ∀ e ∈ r.meshes.map DropEvent.freeMesh, DropEvent.phase e = 1 := by
    intro e he
    rcases List.mem_map.mp he with ⟨n, _, rfl⟩
    rfl
  have hsync : ∀ e ∈ ([DropEvent.destroySemaphore r.render_semaphore,
      DropEvent.destroySemaphore r.present_semaphore,
      DropEvent.destroyFence r.fence] : List DropEvent), DropEvent.phase e = 2 := by
    intro e he
    simp only [List.mem_cons, List.not_mem_nil, or_false] at he
    rcases he with rfl | rfl | rfl <;> rfl
  have hpipe : ∀ e ∈ ([DropEvent.dropPipeline] : List DropEvent), DropEvent.phase e = 3 := by
    intro e he
    simp only [List.mem_singleton] at he
    subst he
    rfl
  have hfb : ∀ e ∈ r.framebuffers.map DropEvent.destroyFramebuffer, DropEvent.phase e = 4 := by
    intro e he
    rcases List.mem_map.mp he with ⟨v, _, rfl⟩
    rfl
  have hrp : ∀ e ∈ ([DropEvent.destroyRenderPass r.render_pass] : List DropEvent),
      DropEvent.phase e = 5 := by
    intro e he
    simp only [List.mem_singleton] at he
    subst he
    rfl
  have hdecomp : Renderer.dropEvents r true =
      [DropEvent.waitForFences [r.fence] true 1000000000]
        ++ (r.meshes.map DropEvent.freeMesh
          ++ ([DropEvent.destroySemaphore r.render_semaphore,
                DropEvent.destroySemaphore r.present_semaphore,
                DropEvent.destroyFence r.fence]
            ++ ([DropEvent.dropPipeline]
              ++ (r.framebuffers.map DropEvent.destroyFramebuffer
                ++ [DropEvent.destroyRenderPass r.render_pass])))) := by
    simp [Renderer.dropEvents]
  rw [hdecomp]
  refine ⟨?_, ?_, ?_, ?_, ?_, ?_, ?_⟩
  · refine pairwise_phase_append _ _ 0 (fun e he => le_of_eq (hwait e he))
      (fun e _ => Nat.zero_le _) (pairwise_phase_of_const _ 0 hwait) ?_
    refine pairwise_phase_append _ _ 1 (fun e he => le_of_eq (hmesh e he)) ?_
      (pairwise_phase_of_const _ 1 hmesh) ?_
    · intro e he
      rcases List.mem_append.mp he with h | h
      · rw [hsync e h]
        omega
      · rcases List.mem_append.mp h with h | h
        · rw [hpipe e h]
          omega
        · rcases List.mem_append.mp h with h | h
          · rw [hfb e h]
            omega
          · rw [hrp e h]
            omega
    · refine pairwise_phase_append _ _ 2 (fun e he => le_of_eq (hsync e he)) ?_
        (pairwise_phase_of_const _ 2 hsync) ?_
      · intro e he
        rcases List.mem_append.mp he with h | h
        · rw [hpipe e h]
          omega
        · rcases List.mem_append.mp h with h | h
          · rw [hfb e h]
            omega
          · rw [hrp e h]
            omega
      · refine pairwise_phase_append _ _ 3 (fun e he => le_of_eq (hpipe e he)) ?_
          (pairwise_phase_of_const _ 3 hpipe) ?_
        · intro e he
          rcases List.mem_append.mp he with h | h
          · rw [hfb e h]
            omega
          · rw [hrp e h]
            omega
        · exact pairwise_phase_append _ _ 4 (fun e he => le_of_eq (hfb e he))
            (fun e he => by rw [hrp e he]; omega)
            (pairwise_phase_of_const _ 4 hfb) (pairwise_phase_of_const _ 5 hrp)
  all_goals
    rw [List.filter_append, List.filter_append, List.filter_append, List.filter_append,
      List.filter_append, filter_phase_of_const _ 0 _ hwait, filter_phase_of_const _ 1 _ hmesh,
      filter_phase_of_const _ 2 _ hsync, filter_phase_of_const _ 3 _ hpipe,
      filter_phase_of_const _ 4 _ hfb, filter_phase_of_const _ 5 _ hrp]
    simp

/-- Witness for C4 is not required (no hypotheses), but we record the
teardown at the sample state for concreteness. -/
theorem renderer_drop_order_sample :
    Renderer.dropEvents sampleState true =
      [.waitForFences [1] true 1000000000, .freeMesh "monkey",
        .destroySemaphore 2, .destroySemaphore 3, .destroyFence 1, .dropPipeline,
        .destroyFramebuffer 10, .destroyFramebuffer 11, .destroyRenderPass 4] := by
  decide

/-! ## C7: partial cleanup on frame-target build failure -/

/-- Whether an `FbEvent` destroys a framebuffer. -/
def FbEvent.isDestroy : FbEvent → Bool
  | .destroyFramebuffer _ => true
  | _ => false

/-- A device answer where the first `create_framebuffer` succeeds with
handle 10 and the second fails. -/
def failSecondCreate : Nat → Option Handle :=
  fun i => if i = 0 then some 10 else none

/-- C7 (counterexample): with two image views where the first target is
created (handle 10) and the second creation fails, `init_frame_buffers`
aborts with an error but issues no destroy call at all — the
already-created target is leaked, refuting the claim that every
already-created target is destroyed. -/
theorem init_frame_buffers_leaks_on_failure_cex :
    failSecondCreate 0 = some 10
    ∧ (init_frame_buffers 4 [20, 21] 9 failSecondCreate).1 =
        .error "Failed to create framebuffer"
    ∧ (init_frame_buffers 4 [20, 21] 9 failSecondCreate).2 =
        [.createFramebuffer 4 20 9, .createFramebuffer 4 21 9]
    ∧ (init_frame_buffers 4 [20, 21] 9 failSecondCreate).2.countP
        (fun e => e.isDestroy) = 0 := by
  refine ⟨rfl, rfl, rfl, rfl⟩

/-- C7 (amended): if creating the i-th frame target fails, the build
aborts with an error, but already-created targets are not destroyed —
in fact `init_frame_buffers` never issues a destroy call under any
device behaviour. -/
theorem init_frame_buffers_aborts_without_cleanup (render_pass depth_view : Handle)
    (image_views : List Handle) (create : Nat → Option Handle) :
    (init_frame_buffers render_pass image_views depth_view create).2.countP
        (fun e => e.isDestroy) = 0
    ∧ ((∃ i, i < image_views.length ∧ create i = none) →
        (init_frame_buffers render_pass image_views depth_view create).1 =
          .error "Failed to create framebuffer") := by
  have hgo : ∀ (views : List Handle) (i : Nat) (fbs : List Handle) (evts : List FbEvent),
      (∀ e ∈ evts, e.isDestroy = false) →
      ((init_frame_buffers.go render_pass depth_view create views i fbs evts).2.countP
          (fun e => e.isDestroy) = 0
        ∧ ((∃ j, j < views.length ∧ create (i + j) = none) →
          (init_frame_buffers.go render_pass depth_view create views i fbs evts).1 =
            .error "Failed to create framebuffer")) := by
    intro views
    induction views with
    | nil =>
      intro i fbs evts hevts
      refine ⟨?_, fun hex => ?_⟩
      · simp only [init_frame_buffers.go]
        rw [List.countP_eq_zero]
        intro e he
        simp [hevts e (List.mem_reverse.mp he)]
      · rcases hex with ⟨j, hj, _⟩
        simp at hj
    | cons v rest ih =>
      intro i fbs evts hevts
      have hevts' : ∀ e ∈ FbEvent.createFramebuffer render_pass v depth_view :: evts,
          e.isDestroy = false := by
        intro e he
        rcases List.mem_cons.mp he with rfl | he
        · rfl
        · exact hevts e he
      simp only [init_frame_buffers.go]
      cases hc : create i with
      | none =>
        refine ⟨?_, fun _ => rfl⟩
        rw [List.countP_eq_zero]
        intro e he
        simp [hevts' e (List.mem_reverse.mp he)]
      | some fb =>
        refine ⟨(ih (i + 1) (fb :: fbs) _ hevts').1, fun hex => ?_⟩
        rcases hex with ⟨j, hj, hnone⟩
        cases j with
        | zero =>
          rw [Nat.add_zero] at hnone
          rw [hc] at hnone
          exact absurd hnone (by simp)
        | succ k =>
          refine (ih (i + 1) (fb :: fbs) _ hevts').2 ⟨k, ?_, ?_⟩
          · simp only [List.length_cons] at hj
            omega
          · rw [← hnone]
            congr 1
            omega
  have hmain := hgo image_views 0 [] [] (fun e he => absurd he (List.not_mem_nil e))
  simp only [init_frame_buffers]
  refine ⟨hmain.1, fun hex => hmain.2 ?_⟩
  rcases hex with ⟨i, hi, hnone⟩
  exact ⟨i, hi, by rwa [Nat.zero_add]⟩

/-- Witness for C7's amended theorem at the concrete failing device. -/
theorem init_frame_buffers_aborts_without_cleanup_witness :
    (init_frame_buffers 4 [20, 21] 9 failSecondCreate).1 =
      .error "Failed to create framebuffer" :=
  (init_frame_buffers_aborts_without_cleanup 4 9 [20, 21] failSecondCreate).2
    ⟨1, by decide, by decide⟩

/-! ## Trace structure of the frame cycle (shared by C1, C2, C3, C9) -/

/-- Whether an event is a fence wait. -/
def RenderEvent.isWait : RenderEvent → Bool
  | .waitForFences _ _ _ => true
  | _ => false

/-- The constraint the claims place on every event after the fence wait:
it is not another fence wait; if it is a queue submission then its wait
list, signal list and fence are `[present-semaphore]`,
`[present-semaphore]` and the frame fence; if it is a present then it
waits on `[present-semaphore]`. -/
def PinnedEvent (ps f : Handle) (e : RenderEvent) : Prop :=
  e.isWait = false
  ∧ (∀ ws ss fe, e = .queueSubmit ws ss fe → ws = [ps] ∧ ss = [ps] ∧ fe = f)
  ∧ (∀ j ws, e = .present j ws → ws = [ps])

theorem pinned_append {ps f : Handle} {l₁ l₂ : List RenderEvent}
    (h₁ : ∀ e ∈ l₁, PinnedEvent ps f e) (h₂ : ∀ e ∈ l₂, PinnedEvent ps f e) :
    ∀ e ∈ l₁ ++ l₂, PinnedEvent ps f e := by
  intro e he
  rcases List.mem_append.mp he with h | h
  · exact h₁ e h
  · exact h₂ e h

theorem drawEvents_pinned (ps f : Handle) (ms : List String) :
    ∀ e ∈ drawEvents ms, PinnedEvent ps f e := by
  intro e he
  rcases List.mem_flatMap.mp he with ⟨n, _, hmem⟩
  simp only [List.mem_cons, List.not_mem_nil, or_false] at hmem
  rcases hmem with rfl | rfl | rfl <;> exact ⟨rfl, by simp, by simp⟩

/-- The post-begin stage only appends events, and every appended event
is pinned as the claims require. -/
theorem renderAfterBegin_trace_decomp (r : RendererState) (o : DeviceOracle) (ix : Nat)
    (t : List RenderEvent) :
    ∃ v, (renderAfterBegin r o ix t).trace = t ++ v
      ∧ ∀ e ∈ v, PinnedEvent r.present_semaphore r.fence e := by
  have hrec : ∀ fb, ∀ e ∈ [RenderEvent.beginRenderPass r.render_pass fb,
      RenderEvent.bindPipeline] ++ drawEvents r.meshes
      ++ [RenderEvent.endRenderPass, RenderEvent.endCommandBuffer],
      PinnedEvent r.present_semaphore r.fence e := by
    intro fb
    refine pinned_append
      (pinned_append (fun e he => ?_) (drawEvents_pinned _ _ _)) (fun e he => ?_)
    · simp only [List.mem_cons, List.not_mem_nil, or_false] at he
      rcases he with rfl | rfl <;> exact ⟨rfl, by simp, by simp⟩
    · simp only [List.mem_cons, List.not_mem_nil, or_false] at he
      rcases he with rfl | rfl <;> exact ⟨rfl, by simp, by simp⟩
  have hsubmit : PinnedEvent r.present_semaphore r.fence
      (.queueSubmit [r.present_semaphore] [r.present_semaphore] r.fence) := by
    refine ⟨rfl, fun ws ss fe h => ?_, by simp⟩
    cases h
    exact ⟨rfl, rfl, rfl⟩
  have hpresent : ∀ j, PinnedEvent r.present_semaphore r.fence
      (.present j [r.present_semaphore]) := by
    intro j
    refine ⟨rfl, by simp, fun j2 ws h => ?_⟩
    cases h
    rfl
  have hlog : PinnedEvent r.present_semaphore r.fence
      (.logError "Failed to submit command buffer") := ⟨rfl, by simp, by simp⟩
  unfold renderAfterBegin
  cases hfb : r.framebuffers.get? ix with
  | none =>
    refine ⟨[], by simp [Outcome.trace], by simp⟩
  | some fb =>
    by_cases hend : o.endCommandBufferOk
    · by_cases hsub : o.queueSubmitOk
      · refine ⟨([RenderEvent.beginRenderPass r.render_pass fb, RenderEvent.bindPipeline]
            ++ drawEvents r.meshes
            ++ [RenderEvent.endRenderPass, RenderEvent.endCommandBuffer])
            ++ ([RenderEvent.queueSubmit [r.present_semaphore] [r.present_semaphore] r.fence]
            ++ [RenderEvent.present ix [r.present_semaphore]]), ?_, ?_⟩
        · simp [hend, hsub, Outcome.trace]
        · refine pinned_append (hrec fb) (pinned_append (fun e he => ?_) (fun e he => ?_))
          · simp only [List.mem_singleton] at he
            subst he
            exact hsubmit
          · simp only [List.mem_singleton] at he
            subst he
            exact hpresent ix
      · refine ⟨([RenderEvent.beginRenderPass r.render_pass fb, RenderEvent.bindPipeline]
            ++ drawEvents r.meshes
            ++ [RenderEvent.endRenderPass, RenderEvent.endCommandBuffer])
            ++ ([RenderEvent.queueSubmit [r.present_semaphore] [r.present_semaphore] r.fence]
            ++ ([RenderEvent.logError "Failed to submit command buffer"]
            ++ [RenderEvent.present ix [r.present_semaphore]])), ?_, ?_⟩
        · simp [hend, hsub, Outcome.trace]
        · refine pinned_append (hrec fb) (pinned_append (fun e he => ?_)
            (pinned_append (fun e he => ?_) (fun e he => ?_)))
          · simp only [List.mem_singleton] at he
            subst he
            exact hsubmit
          · simp only [List.mem_singleton] at he
            subst he
            exact hlog
          · simp only [List.mem_singleton] at he
            subst he
            exact hpresent ix
    · refine ⟨[RenderEvent.beginRenderPass r.render_pass fb, RenderEvent.bindPipeline]
          ++ drawEvents r.meshes
          ++ [RenderEvent.endRenderPass, RenderEvent.endCommandBuffer], ?_, hrec fb⟩
      simp [hend, Outcome.trace]

/-- The frame cycle's trace starts with the single bounded fence wait;
every later event is pinned; and when the wait succeeds, the fence
reset immediately follows. -/
theorem render_trace_decomp (r : RendererState) (o : DeviceOracle) :
    ∃ u, (render r o).trace = .waitForFences [r.fence] true 1000000000 :: u
      ∧ (∀ e ∈ u, PinnedEvent r.present_semaphore r.fence e)
      ∧ ((waitForFencesCall r.fenceSignaled o).1 = .SUCCESS →
          ∃ u2, u = .resetFences [r.fence] :: u2) := by
  unfold render
  by_cases hw : (waitForFencesCall r.fenceSignaled o).1 = .SUCCESS
  · simp only [hw, ne_eq, not_true_eq_false, if_false]
    have hpin2 : PinnedEvent r.present_semaphore r.fence (.resetFences [r.fence]) :=
      ⟨rfl, by simp, by simp⟩
    have hpin3 : PinnedEvent r.present_semaphore r.fence
        (.acquireNextImage r.present_semaphore) := ⟨rfl, by simp, by simp⟩
    have hpin4 : PinnedEvent r.present_semaphore r.fence .resetCommandBuffer :=
      ⟨rfl, by simp, by simp⟩
    have hpin5 : PinnedEvent r.present_semaphore r.fence
        (.logError "Failed to reset command buffer") := ⟨rfl, by simp, by simp⟩
    have hpin6 : PinnedEvent r.present_semaphore r.fence .beginCommandBuffer :=
      ⟨rfl, by simp, by simp⟩
    by_cases hrf : o.resetFencesOk
    · simp only [hrf, Bool.not_true, if_false, Bool.false_eq_true]
      cases hacq : o.acquire with
      | error e =>
        refine ⟨[.resetFences [r.fence], .acquireNextImage r.present_semaphore], ?_, ?_, ?_⟩
        · simp [Outcome.trace]
        · intro e2 he2
          simp only [List.mem_cons, List.not_mem_nil, or_false] at he2
          rcases he2 with rfl | rfl
          · exact hpin2
          · exact hpin3
        · intro _
          exact ⟨_, rfl⟩
      | ok p =>
        rcases p with ⟨ix, subopt⟩
        by_cases hrcb : o.resetCommandBufferOk
        · by_cases hbcb : o.beginCommandBufferOk
          · rcases renderAfterBegin_trace_decomp { r with fenceSignaled := false } o ix
              ([.waitForFences [r.fence] true 1000000000] ++ [.resetFences [r.fence]]
                ++ [.acquireNextImage r.present_semaphore] ++ [.resetCommandBuffer]
                ++ [.beginCommandBuffer]) with ⟨v, hv, hvpin⟩
            refine ⟨[.resetFences [r.fence], .acquireNextImage r.present_semaphore,
              .resetCommandBuffer, .beginCommandBuffer] ++ v, ?_, ?_, fun _ => ⟨_, rfl⟩⟩
            · simp only [hrcb, hbcb, Bool.not_true, if_false, Bool.false_eq_true]
              rw [hv]
              simp
            · refine pinned_append (fun e he => ?_) hvpin
              simp only [List.mem_cons, List.not_mem_nil, or_false] at he
              rcases he with rfl | rfl | rfl | rfl
              · exact hpin2
              · exact hpin3
              · exact hpin4
              · exact hpin6
          · refine ⟨[.resetFences [r.fence], .acquireNextImage r.present_semaphore,
              .resetCommandBuffer, .beginCommandBuffer], ?_, ?_, fun _ => ⟨_, rfl⟩⟩
            · simp [hrcb, hbcb, Outcome.trace]
            · intro e2 he2
              simp only [List.mem_cons, List.not_mem_nil, or_false] at he2
              rcases he2 with rfl | rfl | rfl | rfl
              · exact hpin2
              · exact hpin3
              · exact hpin4
              · exact hpin6
        · rcases renderAfterBegin_trace_decomp { r with fenceSignaled := false } o ix
            ([.waitForFences [r.fence] true 1000000000] ++ [.resetFences [r.fence]]
              ++ [.acquireNextImage r.present_semaphore] ++ [.resetCommandBuffer]
              ++ [.logError "Failed to reset command buffer"]) with ⟨v, hv, hvpin⟩
          refine ⟨[.resetFences [r.fence], .acquireNextImage r.present_semaphore,
            .resetCommandBuffer, .logError "Failed to reset command buffer"] ++ v, ?_, ?_,
            fun _ => ⟨_, rfl⟩⟩
          · simp only [hrcb, Bool.not_false, if_true, Bool.false_eq_true]
            rw [hv]
            simp
          · refine pinned_append (fun e he => ?_) hvpin
            simp only [List.mem_cons, List.not_mem_nil, or_false] at he
            rcases he with rfl | rfl | rfl | rfl
            · exact hpin2
            · exact hpin3
            · exact hpin4
            · exact hpin5
    · refine ⟨[.resetFences [r.fence]], ?_, ?_, fun _ => ⟨_, rfl⟩⟩
      · simp [hrf, Outcome.trace]
      · intro e2 he2
        simp only [List.mem_singleton] at he2
        subst he2
        exact hpin2
  · refine ⟨[], by simp [hw, Outcome.trace], by simp, fun h => absurd h hw⟩

/-! ## C3: the fence wait gates command-buffer reuse -/

/-- C3: in every frame cycle, the very first event is the bounded fence
wait (1 second in nanoseconds); the command buffer is reset or begun
only if that wait was observed successful; a wait failure (timeout) is
fatal — the cycle panics at once, with no retry — and the cycle contains
exactly one fence wait. -/
theorem render_fence_wait_gates_recording (r : RendererState) (o : DeviceOracle) :
    (render r o).trace.take 1 = [.waitForFences [r.fence] true 1000000000]
    ∧ ((RenderEvent.resetCommandBuffer ∈ (render r o).trace ∨
        RenderEvent.beginCommandBuffer ∈ (render r o).trace) →
        (waitForFencesCall r.fenceSignaled o).1 = .SUCCESS)
    ∧ ((waitForFencesCall r.fenceSignaled o).1 ≠ .SUCCESS →
        render r o = .panicked [.waitForFences [r.fence] true 1000000000]
          "Failed to wait for fence")
    ∧ (render r o).trace.countP (fun e => e.isWait) = 1 := by
  rcases render_trace_decomp r o with ⟨u, hu, hupin, _⟩
  have hfail : (waitForFencesCall r.fenceSignaled o).1 ≠ .SUCCESS →
      render r o = .panicked [.waitForFences [r.fence] true 1000000000]
        "Failed to wait for fence" := by
    intro hw
    unfold render
    simp [hw]
  refine ⟨by rw [hu]; rfl, fun hmem => ?_, hfail, ?_⟩
  · by_contra hw
    rw [hfail hw] at hmem
    simp [Outcome.trace] at hmem
  · rw [hu, List.countP_cons]
    have hzero : List.countP (fun e => e.isWait) u = 0 := by
      rw [List.countP_eq_zero]
      intro e he
      simp [(hupin e he).1]
    rw [hzero]
    rfl

/-- Witness for C3 at the sample state and the all-success oracle. -/
theorem render_fence_wait_gates_recording_witness :
    (render sampleState okOracle).trace.take 1 = [.waitForFences [1] true 1000000000]
    ∧ (waitForFencesCall sampleState.fenceSignaled okOracle).1 = .SUCCESS :=
  ⟨(render_fence_wait_gates_recording sampleState okOracle).1,
    (render_fence_wait_gates_recording sampleState okOracle).2.1 (Or.inl (by decide))⟩

/-! ## C2: behaviour when acquisition reports the surface out of date -/

/-- C2 (counterexample): when acquisition reports
`ERROR_OUT_OF_DATE_KHR`, `render()` does not return a distinguishable
error or state — it crashes: the `expect` on the acquire result panics
the process. -/
theorem render_out_of_date_crashes_cex :
    outOfDateOracle.acquire = .error .ERROR_OUT_OF_DATE_KHR
    ∧ (render sampleState outOfDateOracle).isPanic = true
    ∧ render sampleState outOfDateOracle =
        .panicked [.waitForFences [1] true 1000000000, .resetFences [1],
          .acquireNextImage 3] "Failed to acquire next image" := by
  exact ⟨rfl, rfl, by decide⟩

/-- C2 (amended): when image acquisition fails (e.g. the surface is out
of date) after a successful fence wait and reset, `render` panics with
"Failed to acquire next image" — no error value is returned to the
caller, who therefore cannot trigger a rebuild. -/
theorem render_acquire_failure_panics (r : RendererState) (o : DeviceOracle) (e : VkResult)
    (hw : (waitForFencesCall r.fenceSignaled o).1 = .SUCCESS)
    (hrf : o.resetFencesOk = true) (ha : o.acquire = .error e) :
    render r o = .panicked
      [.waitForFences [r.fence] true 1000000000, .resetFences [r.fence],
        .acquireNextImage r.present_semaphore] "Failed to acquire next image" := by
  unfold render
  simp [hw, hrf, ha]

/-- Witness for C2's amended theorem at the out-of-date oracle. -/
theorem render_acquire_failure_panics_witness :
    render sampleState outOfDateOracle = .panicked
      [.waitForFences [1] true 1000000000, .resetFences [1], .acquireNextImage 3]
      "Failed to acquire next image" :=
  render_acquire_failure_panics sampleState outOfDateOracle .ERROR_OUT_OF_DATE_KHR rfl rfl rfl

/-! ## C1: semaphores used by submit and present -/

/-- A completed post-begin stage contains the queue submission pinned to
the present-semaphore and the present of the acquired index. -/
theorem renderAfterBegin_completed_mem (r : RendererState) (o : DeviceOracle) (ix : Nat)
    (t t2 : List RenderEvent) (s : RendererState)
    (h : renderAfterBegin r o ix t = .completed t2 s) :
    RenderEvent.queueSubmit [r.present_semaphore] [r.present_semaphore] r.fence ∈ t2
    ∧ RenderEvent.present ix [r.present_semaphore] ∈ t2 := by
  unfold renderAfterBegin at h
  cases hfb : r.framebuffers.get? ix with
  | none =>
    rw [hfb] at h
    simp at h
  | some fb =>
    rw [hfb] at h
    by_cases hend : o.endCommandBufferOk
    · by_cases hsub : o.queueSubmitOk
      · simp only [hend, hsub, Bool.not_true, Bool.false_eq_true, if_false, if_true] at h
        cases h
        constructor <;> simp
      · simp only [hend, hsub, Bool.not_true, Bool.false_eq_true, if_false] at h
        cases h
        constructor <;> simp
    · simp only [hend, Bool.not_false, if_true] at h
      simp at h

/-- A completed frame cycle contains the pinned submission and a
present waiting on the present-semaphore. -/
theorem render_completed_has_submit_present (r : RendererState) (o : DeviceOracle)
    (t : List RenderEvent) (s : RendererState) (h : render r o = .completed t s) :
    RenderEvent.queueSubmit [r.present_semaphore] [r.present_semaphore] r.fence ∈ t
    ∧ ∃ k, RenderEvent.present k [r.present_semaphore] ∈ t := by
  unfold render at h
  by_cases hw : (waitForFencesCall r.fenceSignaled o).1 = .SUCCESS
  · simp only [hw, ne_eq, not_true_eq_false, if_false] at h
    by_cases hrf : o.resetFencesOk
    · simp only [hrf, Bool.not_true, Bool.false_eq_true, if_false] at h
      cases hacq : o.acquire with
      | error e2 =>
        rw [hacq] at h
        simp at h
      | ok p =>
        rcases p with ⟨ix, sub⟩
        rw [hacq] at h
        by_cases hrcb : o.resetCommandBufferOk
        · simp only [hrcb, Bool.not_true, Bool.false_eq_true, if_false] at h
          by_cases hbcb : o.beginCommandBufferOk
          · simp only [hbcb, Bool.not_true, Bool.false_eq_true, if_false] at h
            have hm := renderAfterBegin_completed_mem _ o ix _ t s h
            exact ⟨hm.1, ix, hm.2⟩
          · simp only [hbcb, Bool.not_false, if_true] at h
            simp at h
        · simp only [hrcb, Bool.not_false, if_true] at h
          have hm := renderAfterBegin_completed_mem _ o ix _ t s h
          exact ⟨hm.1, ix, hm.2⟩
    · simp only [hrf, Bool.not_false, if_true] at h
      simp at h
  · simp only [hw, ne_eq, not_false_eq_true, if_true] at h
    simp at h

/-- C1 (counterexample): with distinct semaphores (render-semaphore 2,
present-semaphore 3) and an all-success cycle, the submission signals
the present-semaphore, not the render-semaphore, and the present waits
on the present-semaphore, not the render-semaphore. -/
theorem render_submit_signals_present_semaphore_cex :
    sampleState.render_semaphore = 2
    ∧ sampleState.present_semaphore = 3
    ∧ RenderEvent.queueSubmit [3] [3] 1 ∈ (render sampleState okOracle).trace
    ∧ RenderEvent.queueSubmit [3] [2] 1 ∉ (render sampleState okOracle).trace
    ∧ RenderEvent.present 0 [3] ∈ (render sampleState okOracle).trace
    ∧ RenderEvent.present 0 [2] ∉ (render sampleState okOracle).trace := by
  refine ⟨rfl, rfl, by decide, by decide, by decide, by decide⟩

/-- C1 (amended): in every frame cycle, any queue submission waits on
[present-semaphore], signals [present-semaphore] — not the
render-semaphore, which the cycle never uses — with the frame fence as
completion fence, and any present waits on [present-semaphore]; a
completed cycle contains such a submission and such a present. -/
theorem render_submit_and_present_semaphores (r : RendererState) (o : DeviceOracle)
    (ws ss : List Handle) (f : Handle) (j : Nat) (pws : List Handle)
    (t : List RenderEvent) (s : RendererState) :
    (RenderEvent.queueSubmit ws ss f ∈ (render r o).trace →
      ws = [r.present_semaphore] ∧ ss = [r.present_semaphore] ∧ f = r.fence)
    ∧ (RenderEvent.present j pws ∈ (render r o).trace → pws = [r.present_semaphore])
    ∧ (render r o = .completed t s →
        RenderEvent.queueSubmit [r.present_semaphore] [r.present_semaphore] r.fence ∈ t
        ∧ ∃ k, RenderEvent.present k [r.present_semaphore] ∈ t) := by
  rcases render_trace_decomp r o with ⟨u, hu, hupin, _⟩
  refine ⟨fun hmem => ?_, fun hmem => ?_,
    fun hc => render_completed_has_submit_present r o t s hc⟩
  · rw [hu] at hmem
    rcases List.mem_cons.mp hmem with heq | hmem2
    · exact absurd heq (by simp)
    · exact (hupin _ hmem2).2.1 ws ss f rfl
  · rw [hu] at hmem
    rcases List.mem_cons.mp hmem with heq | hmem2
    · exact absurd heq (by simp)
    · exact (hupin _ hmem2).2.2 j pws rfl

/-- Witness for C1's amended theorem: the submission observed in the
sample cycle indeed uses the present-semaphore and the frame fence. -/
theorem render_submit_and_present_semaphores_witness :
    ([3] : List Handle) = [sampleState.present_semaphore]
    ∧ ([3] : List Handle) = [sampleState.present_semaphore]
    ∧ (1 : Handle) = sampleState.fence :=
  (render_submit_and_present_semaphores sampleState okOracle [3] [3] 1 0 [3] []
    sampleState).1 (by decide)

/-! ## C9: the fence starts signaled -/

/-- C9: `Renderer::new` creates the frame fence with the SIGNALED flag,
so the state it returns has a signaled fence, the fence wait at the
start of the very first frame cycle returns immediately (success after
0 ns blocked, whatever the device oracle would answer), and that first
cycle proceeds past the wait to the fence reset. -/
theorem fence_created_signaled_first_wait_immediate (render_pass fence rs ps : Handle)
    (framebuffers : List Handle) (meshes : List String) (o : DeviceOracle) :
    renderer_fence_create_flags = .SIGNALED
    ∧ (Renderer.newState render_pass framebuffers fence rs ps meshes).fenceSignaled = true
    ∧ waitForFencesCall
        (Renderer.newState render_pass framebuffers fence rs ps meshes).fenceSignaled o =
        (.SUCCESS, 0)
    ∧ (render (Renderer.newState render_pass framebuffers fence rs ps meshes) o).trace.take 2 =
        [.waitForFences [fence] true 1000000000, .resetFences [fence]] := by
  refine ⟨rfl, rfl, rfl, ?_⟩
  rcases render_trace_decomp (Renderer.newState render_pass framebuffers fence rs ps meshes) o
    with ⟨u, hu, _, hsucc⟩
  rcases hsucc (by rfl) with ⟨u2, rfl⟩
  rw [hu]
  rfl

end VkGuide
